import Mathlib

/-!
Shallow embedding of `cloudflare/wasm-proxy-worker.js` (BentoPDF WASM proxy
worker) and verification of its specification claims.

Strings are Lean `String`s; JS string primitives (`startsWith`, `endsWith`,
`includes`, `replace` of the first occurrence, `substring(lastIndexOf('.'))`,
`parseInt(_, 10)`) are modelled by the `js*` helpers below, operating on
character lists.  The worker's effects (upstream `fetch`, edge-cache match/put,
KV get/put) are modelled by explicit inputs (the current cache and upstream as
functions) and explicit outputs (the list of fetched URLs, the optional cache
put, the optional KV put with its TTL).
-/

namespace WasmProxy

/-- JS `p.isPrefixOf`-style `startsWith`: `pre` is a prefix of `s`. -/
def jsStartsWith (s pre : String) : Bool :=
  pre.toList.isPrefixOf s.toList

/-- JS `endsWith`: `post` is a suffix of `s`. -/
def jsEndsWith (s post : String) : Bool :=
  post.toList.isSuffixOf s.toList

/-- Whether `pat` occurs as a contiguous sublist of the second argument. -/
def isSubstrOf (pat : List Char) : List Char → Bool
  | [] => pat.isEmpty
  | c :: rest => pat.isPrefixOf (c :: rest) || isSubstrOf pat rest

/-- JS `s.includes(sub)`: `sub` occurs as a contiguous substring of `s`. -/
def jsIncludes (s sub : String) : Bool :=
  isSubstrOf sub.toList s.toList

/-- JS falsy test for an optional string (`!x`): absent or empty. -/
def jsFalsy : Option String → Bool
  | none => true
  | some s => s.toList.isEmpty

/-- JS `x || d` for an optional string: `d` when absent or empty. -/
def jsOrStr (o : Option String) (d : String) : String :=
  match o with
  | none => d
  | some s => if s.toList.isEmpty then d else s

/-- JS `s.replace(/\/$/, '')`: strip one trailing slash. -/
def stripTrailingSlash (s : String) : String :=
  if jsEndsWith s "/" then String.mk s.toList.dropLast else s

/-- Helper for `jsReplaceFirst`: replace the first occurrence of `pat` in the
character list by `rep`. -/
def replaceFirstAux (pat rep : List Char) : List Char → List Char
  | [] => []
  | c :: rest =>
    if pat.isPrefixOf (c :: rest) then rep ++ (c :: rest).drop pat.length
    else c :: replaceFirstAux pat rep rest

/-- JS `s.replace(pat, rep)` with a string pattern: replaces only the first
occurrence. -/
def jsReplaceFirst (s pat rep : String) : String :=
  String.mk (replaceFirstAux pat.toList rep.toList s.toList)

/-- Index (in characters) just past the last `.` of the list, or `none`. -/
def lastDotAux : List Char → Option Nat
  | [] => none
  | c :: rest =>
    match lastDotAux rest with
    | some j => some (j + 1)
    | none => if c = '.' then some 0 else none

/-- Character-wise lowercase (JS `toLowerCase` restricted to ASCII case
mapping, which is all the worker compares against). -/
def strToLower (s : String) : String :=
  String.mk (s.toList.map Char.toLower)

/-- JS `pathname.substring(pathname.lastIndexOf('.')).toLowerCase()`: the
substring from the last `.` (inclusive), lowercased; when there is no `.`,
`lastIndexOf` is `-1` and `substring(-1)` is the whole string. -/
def extOf (pathname : String) : String :=
  match lastDotAux pathname.toList with
  | some i => strToLower (String.mk (pathname.toList.drop i))
  | none => strToLower pathname

/-- JS `parseInt(s, 10)`: skip leading whitespace, optional sign, then a
maximal digit run; `none` models `NaN`. -/
def jsParseInt10 (s : String) : Option Int :=
  let cs := s.toList.dropWhile (fun c => c = ' ' ∨ c = '\t' ∨ c = '\n' ∨ c = '\r')
  let signed : Int × List Char :=
    match cs with
    | '-' :: r => (-1, r)
    | '+' :: r => (1, r)
    | r => (1, r)
  let digits := signed.2.takeWhile Char.isDigit
  if digits.isEmpty then none
  else some (signed.1 * (digits.foldl (fun acc c => acc * 10 + (c.toNat - '0'.toNat)) 0 : Nat))

/-- Drop everything up to and including the first occurrence of `pat`. -/
def afterSubstr (pat : List Char) : List Char → List Char
  | [] => []
  | c :: rest =>
    if pat.isPrefixOf (c :: rest) then (c :: rest).drop pat.length
    else afterSubstr pat rest

/-- JS `new URL(url).hostname`, simplified to scheme stripping plus taking up to
the first delimiter (the worker only uses it for a diagnostic header). -/
def hostnameOf (url : String) : String :=
  String.mk ((afterSubstr "://".toList url.toList).takeWhile
    (fun c => c ≠ '/' ∧ c ≠ ':' ∧ c ≠ '?' ∧ c ≠ '#'))

/-! ## Configuration constants (verbatim from the worker) -/

def ALLOWED_ORIGINS : List String :=
  ["https://www.bentopdf.com", "https://bentopdf.com", "https://bentopdf-32l.pages.dev"]

def MAX_FILE_SIZE_BYTES : Int := 100 * 1024 * 1024

def RATE_LIMIT_MAX_REQUESTS : Nat := 100

def RATE_LIMIT_WINDOW_MS : Int := 60 * 1000

def CACHE_TTL_SECONDS : Nat := 604800

def ALLOWED_EXTENSIONS : List String :=
  [".js", ".mjs", ".wasm", ".data", ".py", ".so", ".zip", ".json", ".mem",
   ".asm.js", ".worker.js", ".html", ".gz"]

/-! ## Worker helper functions -/

/-- Origin guard `isAllowedOrigin(origin)`: no-origin (or empty, JS-falsy) requests are
allowed; otherwise the origin must start with an allow-listed origin
(trailing slash stripped). -/
def isAllowedOrigin (origin : Option String) : Bool :=
  match origin with
  | none => true
  | some o =>
    if o.toList.isEmpty then true
    else ALLOWED_ORIGINS.any (fun allowed => jsStartsWith o (stripTrailingSlash allowed))

/-- File-type gate `isAllowedFile(pathname)`: the lowercased extension (substring from the
last `.`) is allow-listed, or the path has no `.`, or it ends in `/`. -/
def isAllowedFile (pathname : String) : Bool :=
  let ext := extOf pathname
  if ALLOWED_EXTENSIONS.contains ext then true
  else if !(jsIncludes pathname ".") || jsEndsWith pathname "/" then true
  else false

/-- CORS headers `corsHeaders(origin)` as an association list of header name/value pairs. -/
def corsHeaders (origin : Option String) : List (String × String) :=
  [("Access-Control-Allow-Origin", jsOrStr origin "*"),
   ("Access-Control-Allow-Methods", "GET, HEAD, OPTIONS"),
   ("Access-Control-Allow-Headers", "Content-Type, Range, Cache-Control"),
   ("Access-Control-Expose-Headers", "Content-Length, Content-Range, Content-Type"),
   ("Access-Control-Max-Age", "86400")]

/-- MIME table `getContentType(pathname)`: fixed extension → MIME table, defaulting to
`application/octet-stream`. -/
def getContentType (pathname : String) : String :=
  let ext := extOf pathname
  if ext = ".js" then "application/javascript"
  else if ext = ".mjs" then "application/javascript"
  else if ext = ".wasm" then "application/wasm"
  else if ext = ".json" then "application/json"
  else if ext = ".data" then "application/octet-stream"
  else if ext = ".py" then "text/x-python"
  else if ext = ".so" then "application/octet-stream"
  else if ext = ".zip" then "application/zip"
  else if ext = ".mem" then "application/octet-stream"
  else if ext = ".html" then "text/html"
  else "application/octet-stream"

/-! ## Data model: requests, responses, environment, world -/

/-- A JSON value (the worker only builds flat objects plus one nested object
for the health endpoint). -/
inductive JVal where
  | s (v : String)
  | n (v : Int)
  | b (v : Bool)
  | o (fields : List (String × JVal))

/-- A response body: JSON object, raw bytes, plain text, or empty. -/
inductive RespBody where
  | json (fields : List (String × JVal))
  | bytes (data : List Nat)
  | text (t : String)
  | empty

/-- A `Response`: status, headers, body, and the `encodeBody: 'manual'`
marker that suppresses the platform's re-encoding. -/
structure Response where
  status : Nat
  headers : List (String × String)
  body : RespBody
  encodeManual : Bool

/-- Whether a JSON response body has a field named `k`. -/
def Response.bodyHasField (r : Response) (k : String) : Bool :=
  match r.body with
  | .json fields => fields.any (fun f => f.1 = k)
  | _ => false

/-- An upstream HTTP response as seen by `fetch`. -/
structure UpstreamResp where
  status : Nat
  statusText : String
  contentLength : Option String
  body : List Nat
deriving DecidableEq, Repr

/-- JS `response.ok`: status in `[200, 300)`. -/
def respOk (r : UpstreamResp) : Bool :=
  decide (200 ≤ r.status ∧ r.status < 300)

/-- Outcome of `await fetch(url, ...)`: a response, or a thrown network
error (caught by the worker's `try`/`catch`). -/
inductive FetchOutcome where
  | success (r : UpstreamResp)
  | failure (msg : String)
deriving DecidableEq, Repr

/-- What the edge cache stores for a URL (status and body of the cached
response; only 200-status responses are ever stored). -/
structure CacheEntry where
  status : Nat
  body : List Nat
deriving DecidableEq, Repr

/-- The inbound request: method, URL path, and the two headers the worker
reads (`Origin`, `CF-Connecting-IP`). -/
structure Request where
  method : String
  pathname : String
  origin : Option String
  cfConnectingIP : Option String
deriving DecidableEq, Repr

/-- The worker environment: the four upstream base URLs and the optional
rate-limit KV binding (a key → stored timestamp list map). -/
structure Env where
  libreoffice : Option String
  pymupdf : Option String
  gs : Option String
  cpdf : Option String
  rateLimitKV : Option (String → Option (List Int))

/-- The external world for one invocation: the current time, the edge cache
contents, and the upstream network. -/
structure World where
  now : Int
  cache : String → Option CacheEntry
  upstream : String → FetchOutcome

/-- KV `put` effect: key, stored timestamp list, `expirationTtl` seconds. -/
structure KVPut where
  key : String
  requests : List Int
  ttl : Nat
deriving DecidableEq, Repr

/-- Result of a proxy helper: the response plus its observable effects. -/
structure ProxyOut where
  response : Response
  fetched : List String
  cachePut : Option (String × CacheEntry)

/-- Result of the top-level fetch handler: response plus all observable
effects (KV read key, KV put, upstream fetches, cache put). -/
structure WorkerOut where
  response : Response
  kvReadKey : Option String
  kvPut : Option KVPut
  fetched : List String
  cachePut : Option (String × CacheEntry)

/-! ## Response constructors -/

/-- A JSON response with CORS headers and `Content-Type: application/json`,
as built throughout the worker. -/
def jsonResp (status : Nat) (fields : List (String × JVal)) (origin : Option String) :
    Response :=
  { status := status
    headers := corsHeaders origin ++ [("Content-Type", "application/json")]
    body := .json fields
    encodeManual := false }

def cacheControlValue : String := "public, max-age=" ++ toString CACHE_TTL_SECONDS

/-! ## proxyRequest (Cache-Aware Fetcher) -/

def normalizeBase (b : String) : String :=
  if jsEndsWith b "/" then String.mk b.toList.dropLast else b

def normalizePath (subpath : String) : String :=
  if jsStartsWith subpath "/" then subpath else "/" ++ subpath

def targetUrlOf (b subpath : String) : String :=
  normalizeBase b ++ normalizePath subpath

/-- The 200 response emitted by `proxyRequest` after reading the body into
memory (both on cache hit and on a fresh successful fetch). -/
def okProxyResp (bodyData : List Nat) (normalizedPath targetUrl : String)
    (origin : Option String) : Response :=
  { status := 200
    headers := corsHeaders origin ++
      [("Content-Type", getContentType normalizedPath),
       ("Content-Length", toString bodyData.length),
       ("Cache-Control", cacheControlValue),
       ("X-Proxied-From", hostnameOf targetUrl)]
    body := .bytes bodyData
    encodeManual := false }

/-- Cache-aware fetcher `proxyRequest(request, env, sourceBaseUrl, subpath, origin)`. -/
def oversizeOf (r : UpstreamResp) : Bool :=
  match jsParseInt10 (jsOrStr r.contentLength "0") with
  | some n => decide (n > MAX_FILE_SIZE_BYTES)
  | none => false

def proxyRequest (cache : String → Option CacheEntry) (upstream : String → FetchOutcome)
    (sourceBaseUrl : Option String) (subpath : String) (origin : Option String) :
    ProxyOut :=
  if jsFalsy sourceBaseUrl then
    { response := jsonResp 503
        [("error", .s "Source not configured"),
         ("message", .s "This WASM module source URL has not been configured.")] origin
      fetched := [], cachePut := none }
  else if !isAllowedFile (normalizePath subpath) then
    { response := jsonResp 403
        [("error", .s "Forbidden file type"),
         ("message", .s "Only WASM-related file types are allowed.")] origin
      fetched := [], cachePut := none }
  else
    match cache (targetUrlOf (sourceBaseUrl.getD "") subpath) with
    | some entry =>
      { response := okProxyResp entry.body (normalizePath subpath)
          (targetUrlOf (sourceBaseUrl.getD "") subpath) origin
        fetched := [], cachePut := none }
    | none =>
      match upstream (targetUrlOf (sourceBaseUrl.getD "") subpath) with
      | .failure msg =>
        { response := jsonResp 500
            [("error", .s "Proxy error"), ("message", .s msg)] origin
          fetched := [targetUrlOf (sourceBaseUrl.getD "") subpath], cachePut := none }
      | .success r =>
        if !respOk r then
          { response := jsonResp r.status
              [("error", .s "Failed to fetch resource"),
               ("status", .n r.status),
               ("statusText", .s r.statusText),
               ("targetUrl", .s (targetUrlOf (sourceBaseUrl.getD "") subpath))] origin
            fetched := [targetUrlOf (sourceBaseUrl.getD "") subpath], cachePut := none }
        else if oversizeOf r then
          { response := jsonResp 413
              [("error", .s "File too large"),
               ("message", .s "File exceeds maximum size of 100MB")] origin
            fetched := [targetUrlOf (sourceBaseUrl.getD "") subpath], cachePut := none }
        else
          { response := okProxyResp r.body (normalizePath subpath)
              (targetUrlOf (sourceBaseUrl.getD "") subpath) origin
            fetched := [targetUrlOf (sourceBaseUrl.getD "") subpath]
            cachePut := if r.status = 200 then
                some (targetUrlOf (sourceBaseUrl.getD "") subpath, ⟨r.status, r.body⟩)
              else none }

/-! ## proxyLibreOfficeGz (Compression-Preserving Fetcher) -/

/-- Compression-preserving fetcher `proxyLibreOfficeGz(request, env, sourceBaseUrl, subpath, origin)`: no
cache; serves the compressed bytes with `Content-Encoding: gzip` and
`encodeBody: 'manual'`. -/
def gzContentType (subpath : String) : String :=
  if jsIncludes subpath "soffice.wasm" then "application/wasm"
  else "application/octet-stream"

def proxyLibreOfficeGz (upstream : String → FetchOutcome)
    (sourceBaseUrl : Option String) (subpath : String) (origin : Option String) :
    ProxyOut :=
  if jsFalsy sourceBaseUrl then
    { response := jsonResp 503 [("error", .s "Source not configured")] origin
      fetched := [], cachePut := none }
  else
    match upstream (targetUrlOf (sourceBaseUrl.getD "") subpath) with
    | .failure msg =>
      { response := jsonResp 500
          [("error", .s "Proxy error"), ("message", .s msg)] origin
        fetched := [targetUrlOf (sourceBaseUrl.getD "") subpath], cachePut := none }
    | .success r =>
      if !respOk r then
        { response := jsonResp r.status
            [("error", .s "Failed to fetch"),
             ("status", .n r.status),
             ("targetUrl", .s (targetUrlOf (sourceBaseUrl.getD "") subpath))] origin
          fetched := [targetUrlOf (sourceBaseUrl.getD "") subpath], cachePut := none }
      else
        { response :=
            { status := 200
              headers := corsHeaders origin ++
                [("Content-Type", gzContentType subpath),
                 ("Content-Encoding", "gzip"),
                 ("Content-Length", toString r.body.length),
                 ("Cache-Control", cacheControlValue)]
              body := .bytes r.body
              encodeManual := true }
          fetched := [targetUrlOf (sourceBaseUrl.getD "") subpath], cachePut := none }

/-! ## Route dispatch and the top-level fetch handler -/

/-- Lift a proxy-helper result into a handler result (no KV effects). -/
def liftP (p : ProxyOut) : WorkerOut :=
  { response := p.response, kvReadKey := none, kvPut := none
    fetched := p.fetched, cachePut := p.cachePut }

/-- The health/discovery JSON body. -/
def healthBody (env : Env) : List (String × JVal) :=
  [("service", .s "BentoPDF WASM Proxy"),
   ("version", .s "2.0.0"),
   ("endpoints", .o
     [("libreoffice", .s "/libreoffice/*"), ("pymupdf", .s "/pymupdf/*"),
      ("gs", .s "/gs/*"), ("cpdf", .s "/cpdf/*")]),
   ("configured", .o
     [("libreoffice", .b (!jsFalsy env.libreoffice)),
      ("pymupdf", .b (!jsFalsy env.pymupdf)),
      ("gs", .b (!jsFalsy env.gs)),
      ("cpdf", .b (!jsFalsy env.cpdf))])]

/-- The route dispatcher: the tail of the worker's `fetch` after the origin,
method, and rate-limit gates. -/
def dispatch (req : Request) (env : Env) (w : World) : WorkerOut :=
  if jsStartsWith req.pathname "/libreoffice/" then
    if jsEndsWith (jsReplaceFirst req.pathname "/libreoffice" "") ".wasm" ||
       jsEndsWith (jsReplaceFirst req.pathname "/libreoffice" "") ".data" then
      liftP (proxyLibreOfficeGz w.upstream env.libreoffice
        (jsReplaceFirst req.pathname "/libreoffice" "" ++ ".gz") req.origin)
    else if jsEndsWith (jsReplaceFirst req.pathname "/libreoffice" "") ".gz" then
      liftP (proxyLibreOfficeGz w.upstream env.libreoffice
        (jsReplaceFirst req.pathname "/libreoffice" "") req.origin)
    else
      liftP (proxyRequest w.cache w.upstream env.libreoffice
        (jsReplaceFirst req.pathname "/libreoffice" "") req.origin)
  else if jsStartsWith req.pathname "/pymupdf/" then
    liftP (proxyRequest w.cache w.upstream env.pymupdf
      (jsReplaceFirst req.pathname "/pymupdf" "") req.origin)
  else if jsStartsWith req.pathname "/gs/" then
    liftP (proxyRequest w.cache w.upstream env.gs
      (jsReplaceFirst req.pathname "/gs" "") req.origin)
  else if jsStartsWith req.pathname "/cpdf/" then
    liftP (proxyRequest w.cache w.upstream env.cpdf
      (jsReplaceFirst req.pathname "/cpdf" "") req.origin)
  else if req.pathname = "/" ∨ req.pathname = "/health" then
    { response := jsonResp 200 (healthBody env) req.origin
      kvReadKey := none, kvPut := none, fetched := [], cachePut := none }
  else
    { response := jsonResp 404
        [("error", .s "Not Found"),
         ("message", .s "Use /libreoffice/*, /pymupdf/*, /gs/*, or /cpdf/* endpoints")]
        req.origin
      kvReadKey := none, kvPut := none, fetched := [], cachePut := none }

/-- The rate-limit KV key for a request. -/
def rateKeyOf (req : Request) : String :=
  "wasm-ratelimit:" ++ jsOrStr req.cfConnectingIP "unknown"

/-- The stored timestamps for `key` with entries older than the window
filtered out. -/
def recentOf (kv : String → Option (List Int)) (key : String) (now : Int) :
    List Int :=
  ((kv key).getD []).filter (fun t => now - t < RATE_LIMIT_WINDOW_MS)

/-- The worker's `fetch(request, env, ctx)` handler. -/
def workerFetch (req : Request) (env : Env) (w : World) : WorkerOut :=
  if req.method = "OPTIONS" then
    { response := { status := 204, headers := corsHeaders req.origin
                    body := .empty, encodeManual := false }
      kvReadKey := none, kvPut := none, fetched := [], cachePut := none }
  else if !isAllowedOrigin req.origin then
    { response :=
        { status := 403
          headers := ("Content-Type", "application/json") :: corsHeaders req.origin
          body := .json
            [("error", .s "Forbidden"),
             ("message", .s "Origin not allowed. Add your domain to ALLOWED_ORIGINS if self-hosting.")]
          encodeManual := false }
      kvReadKey := none, kvPut := none, fetched := [], cachePut := none }
  else if req.method ≠ "GET" ∧ req.method ≠ "HEAD" then
    { response := { status := 405, headers := corsHeaders req.origin
                    body := .text "Method not allowed", encodeManual := false }
      kvReadKey := none, kvPut := none, fetched := [], cachePut := none }
  else
    match env.rateLimitKV with
    | none => dispatch req env w
    | some kv =>
      if (recentOf kv (rateKeyOf req) w.now).length ≥ RATE_LIMIT_MAX_REQUESTS then
        { response :=
            { status := 429
              headers := corsHeaders req.origin ++
                [("Content-Type", "application/json"), ("Retry-After", "60")]
              body := .json
                [("error", .s "Rate limit exceeded"),
                 ("message", .s "Maximum 100 requests per minute.")]
              encodeManual := false }
          kvReadKey := some (rateKeyOf req), kvPut := none, fetched := [], cachePut := none }
      else
        { response := (dispatch req env w).response
          kvReadKey := some (rateKeyOf req)
          kvPut := some ⟨rateKeyOf req, recentOf kv (rateKeyOf req) w.now ++ [w.now], 120⟩
          fetched := (dispatch req env w).fetched
          cachePut := (dispatch req env w).cachePut }

/-! ## Concrete fixtures for witnesses and counterexamples -/

/-- An upstream that always answers 200 with a tiny body. -/
def sampleUpstream : String → FetchOutcome :=
  fun _ => .success ⟨200, "OK", none, [1, 2, 3]⟩

/-- An environment with all four sources configured and no KV binding. -/
def sampleEnv : Env :=
  { libreoffice := some "https://cdn.example.com/lo"
    pymupdf := some "https://cdn.example.com/py"
    gs := some "https://cdn.example.com/gs"
    cpdf := some "https://cdn.example.com/cp"
    rateLimitKV := none }

/-- A world with an empty cache and `sampleUpstream`. -/
def sampleWorld : World :=
  { now := 0, cache := fun _ => none, upstream := sampleUpstream }

/-- An upstream that always answers 404. -/
def upstream404 : String → FetchOutcome :=
  fun _ => .success ⟨404, "Not Found", none, []⟩

/-- An upstream that always answers 206 Partial Content. -/
def upstream206 : String → FetchOutcome :=
  fun _ => .success ⟨206, "Partial Content", none, [9]⟩

/-- An upstream that declares a Content-Length of 100 MiB + 1. -/
def upstreamBig : String → FetchOutcome :=
  fun _ => .success ⟨200, "OK", some "104857601", []⟩

/-- A KV store holding 100 fresh timestamps for the shared unknown-IP key. -/
def kvHundred : String → Option (List Int) :=
  fun k => if k = "wasm-ratelimit:unknown" then some (List.replicate 100 0) else none

/-- A KV store holding one stale and one fresh timestamp for the unknown-IP key. -/
def kvTwo : String → Option (List Int) :=
  fun k => if k = "wasm-ratelimit:unknown" then some [-100000, 5] else none

/-- World whose upstream answers 404. -/
def world404 : World := { now := 0, cache := fun _ => none, upstream := upstream404 }

/-- Environment with the rate-limit KV bound to `kvHundred`. -/
def envKvHundred : Env := { sampleEnv with rateLimitKV := some kvHundred }

/-- Environment with the rate-limit KV bound to `kvTwo`. -/
def envKvTwo : Env := { sampleEnv with rateLimitKV := some kvTwo }

/-! ## Branch-shape lemmas -/

/-- Every `proxyRequest` response either carries an `error` JSON field or has
status 200. -/
theorem proxyRequest_error_or_200 (cache : String → Option CacheEntry)
    (upstream : String → FetchOutcome) (src : Option String) (subpath : String)
    (origin : Option String) :
    (proxyRequest cache upstream src subpath origin).response.bodyHasField "error" = true ∨
    (proxyRequest cache upstream src subpath origin).response.status = 200 := by
  unfold proxyRequest
  repeat' split
  all_goals first
    | exact Or.inl rfl
    | exact Or.inr rfl

/-- Every `proxyLibreOfficeGz` response either carries an `error` JSON field
or has status 200. -/
theorem proxyLibreOfficeGz_error_or_200 (upstream : String → FetchOutcome)
    (src : Option String) (subpath : String) (origin : Option String) :
    (proxyLibreOfficeGz upstream src subpath origin).response.bodyHasField "error" = true ∨
    (proxyLibreOfficeGz upstream src subpath origin).response.status = 200 := by
  unfold proxyLibreOfficeGz
  repeat' split
  all_goals first
    | exact Or.inl rfl
    | exact Or.inr rfl

/-- Every dispatcher response either carries an `error` JSON field or has
status 200. -/
theorem dispatch_error_or_200 (req : Request) (env : Env) (w : World) :
    (dispatch req env w).response.bodyHasField "error" = true ∨
    (dispatch req env w).response.status = 200 := by
  unfold dispatch
  repeat' split
  all_goals first
    | exact proxyRequest_error_or_200 _ _ _ _ _
    | exact proxyLibreOfficeGz_error_or_200 _ _ _ _
    | exact Or.inl rfl
    | exact Or.inr rfl

/-- Every handler response is a 204 preflight, the plain-text 405, carries an
`error` JSON field, or has status 200. -/
theorem workerFetch_error_taxonomy (req : Request) (env : Env) (w : World) :
    (workerFetch req env w).response.status = 204 ∨
    (workerFetch req env w).response.status = 405 ∨
    (workerFetch req env w).response.bodyHasField "error" = true ∨
    (workerFetch req env w).response.status = 200 := by
  unfold workerFetch
  repeat' split
  all_goals first
    | exact Or.inl rfl
    | exact Or.inr (Or.inl rfl)
    | exact Or.inr (Or.inr (Or.inl rfl))
    | exact Or.inr (Or.inr (dispatch_error_or_200 _ _ _))

/-! ## C1: origin guard -/

/-- C1 counterexample: the claim says a request with a non-allow-listed
Origin gets a 403 regardless of method, but an OPTIONS request with the
disallowed origin `https://evil.com` short-circuits into the 204 preflight
before the origin guard runs. -/
theorem c1_options_bypasses_origin_guard :
    isAllowedOrigin (some "https://evil.com") = false ∧
    (workerFetch ⟨"OPTIONS", "/health", some "https://evil.com", none⟩
      sampleEnv sampleWorld).response.status = 204 ∧
    (workerFetch ⟨"OPTIONS", "/health", some "https://evil.com", none⟩
      sampleEnv sampleWorld).response.status ≠ 403 := by
  refine ⟨by decide, rfl, by decide⟩

/-- C1 (amended): for every request whose Origin header is rejected by the
allow-list and whose method is not OPTIONS (OPTIONS short-circuits into the
204 preflight), the handler returns status 403 with a JSON body carrying an
`error` field, regardless of path. -/
theorem c1_origin_denied (req : Request) (env : Env) (w : World)
    (hdeny : isAllowedOrigin req.origin = false)
    (hm : req.method ≠ "OPTIONS") :
    (workerFetch req env w).response.status = 403 ∧
    (workerFetch req env w).response.bodyHasField "error" = true := by
  unfold workerFetch
  rw [if_neg hm, hdeny]
  exact ⟨rfl, rfl⟩

/-- Witness for `c1_origin_denied` at a concrete denied origin. -/
theorem c1_origin_denied_witness :
    (workerFetch ⟨"GET", "/gs/mod.wasm", some "https://evil.com", none⟩
      sampleEnv sampleWorld).response.status = 403 ∧
    (workerFetch ⟨"GET", "/gs/mod.wasm", some "https://evil.com", none⟩
      sampleEnv sampleWorld).response.bodyHasField "error" = true :=
  c1_origin_denied ⟨"GET", "/gs/mod.wasm", some "https://evil.com", none⟩
    sampleEnv sampleWorld (by decide) (by decide)

/-! ## C2: error body format -/

/-- C2 counterexample: the claim says every response with status at least 400
has a JSON body with `error` and `message` fields, but the 405
method-not-allowed response has the plain text body `Method not allowed`,
which is not JSON and has no fields. -/
theorem c2_405_is_plain_text :
    (workerFetch ⟨"PUT", "/health", none, none⟩ sampleEnv sampleWorld).response.status = 405 ∧
    400 ≤ (workerFetch ⟨"PUT", "/health", none, none⟩ sampleEnv sampleWorld).response.status ∧
    (workerFetch ⟨"PUT", "/health", none, none⟩ sampleEnv
      sampleWorld).response.bodyHasField "error" = false ∧
    (workerFetch ⟨"PUT", "/health", none, none⟩ sampleEnv
      sampleWorld).response.body = .text "Method not allowed" := by
  refine ⟨rfl, by decide, rfl, rfl⟩

/-- C2 (amended): every handler response with status at least 400, other than
the 405 method-not-allowed response (whose body is plain text), has a JSON
body containing an `error` field; and when the cache-aware fetcher mirrors a
non-success upstream status, its body additionally contains `status`,
`statusText`, and `targetUrl` fields. -/
theorem c2_error_bodies :
    (∀ (req : Request) (env : Env) (w : World),
      400 ≤ (workerFetch req env w).response.status →
      (workerFetch req env w).response.status = 405 ∨
      (workerFetch req env w).response.bodyHasField "error" = true) ∧
    (∀ (cache : String → Option CacheEntry) (upstream : String → FetchOutcome)
       (src : Option String) (subpath : String) (origin : Option String)
       (r : UpstreamResp),
      jsFalsy src = false →
      isAllowedFile (normalizePath subpath) = true →
      cache (targetUrlOf (src.getD "") subpath) = none →
      upstream (targetUrlOf (src.getD "") subpath) = .success r →
      respOk r = false →
      (proxyRequest cache upstream src subpath origin).response.status = r.status ∧
      (proxyRequest cache upstream src subpath origin).response.bodyHasField "error" = true ∧
      (proxyRequest cache upstream src subpath origin).response.bodyHasField "status" = true ∧
      (proxyRequest cache upstream src subpath origin).response.bodyHasField "statusText" = true ∧
      (proxyRequest cache upstream src subpath origin).response.bodyHasField "targetUrl" = true) := by
  constructor
  · intro req env w h400
    rcases workerFetch_error_taxonomy req env w with h | h | h | h
    · omega
    · exact Or.inl h
    · exact Or.inr h
    · omega
  · intro cache upstream src subpath origin r hsrc hfile hcache hup hok
    unfold proxyRequest
    simp [hsrc, hfile, hcache, hup, hok, Response.bodyHasField, jsonResp]

/-- Witness for `c2_error_bodies`: the 404 response carries an `error` field,
and a mirrored upstream 404 from the cache-aware fetcher carries all four
diagnostic fields. -/
theorem c2_error_bodies_witness :
    ((workerFetch ⟨"GET", "/nope", none, none⟩ sampleEnv world404).response.status = 405 ∨
     (workerFetch ⟨"GET", "/nope", none, none⟩ sampleEnv
       world404).response.bodyHasField "error" = true) ∧
    ((proxyRequest (fun _ => none) upstream404 (some "https://cdn.example.com/gs")
        "/mod.wasm" none).response.status = 404 ∧
     (proxyRequest (fun _ => none) upstream404 (some "https://cdn.example.com/gs")
        "/mod.wasm" none).response.bodyHasField "error" = true ∧
     (proxyRequest (fun _ => none) upstream404 (some "https://cdn.example.com/gs")
        "/mod.wasm" none).response.bodyHasField "status" = true ∧
     (proxyRequest (fun _ => none) upstream404 (some "https://cdn.example.com/gs")
        "/mod.wasm" none).response.bodyHasField "statusText" = true ∧
     (proxyRequest (fun _ => none) upstream404 (some "https://cdn.example.com/gs")
        "/mod.wasm" none).response.bodyHasField "targetUrl" = true) :=
  ⟨c2_error_bodies.1 ⟨"GET", "/nope", none, none⟩ sampleEnv world404 (by decide),
   c2_error_bodies.2 (fun _ => none) upstream404 (some "https://cdn.example.com/gs")
     "/mod.wasm" none ⟨404, "Not Found", none, []⟩
     (by decide) (by decide) rfl rfl (by decide)⟩

/-! ## C3: cache-store invariant -/

/-- C3: the cache-aware fetcher stores a response only when the upstream
fetch succeeded with a success status (in fact exactly 200) and the declared
Content-Length did not exceed 100 MiB; an upstream success response whose
declared Content-Length exceeds 100 MiB yields a 413 and is never stored;
and a non-ok upstream response is never stored. -/
theorem c3_cache_invariant :
    (∀ (cache : String → Option CacheEntry) (upstream : String → FetchOutcome)
       (src : Option String) (subpath : String) (origin : Option String)
       (url : String) (e : CacheEntry),
      (proxyRequest cache upstream src subpath origin).cachePut = some (url, e) →
      ∃ r, upstream url = .success r ∧ respOk r = true ∧ r.status = 200 ∧
        oversizeOf r = false ∧
        ∀ n, jsParseInt10 (jsOrStr r.contentLength "0") = some n →
          n ≤ MAX_FILE_SIZE_BYTES) ∧
    (∀ (cache : String → Option CacheEntry) (upstream : String → FetchOutcome)
       (src : Option String) (subpath : String) (origin : Option String)
       (r : UpstreamResp) (n : Int),
      jsFalsy src = false →
      isAllowedFile (normalizePath subpath) = true →
      cache (targetUrlOf (src.getD "") subpath) = none →
      upstream (targetUrlOf (src.getD "") subpath) = .success r →
      respOk r = true →
      jsParseInt10 (jsOrStr r.contentLength "0") = some n →
      n > MAX_FILE_SIZE_BYTES →
      (proxyRequest cache upstream src subpath origin).response.status = 413 ∧
      (proxyRequest cache upstream src subpath origin).cachePut = none) ∧
    (∀ (cache : String → Option CacheEntry) (upstream : String → FetchOutcome)
       (src : Option String) (subpath : String) (origin : Option String)
       (r : UpstreamResp),
      upstream (targetUrlOf (src.getD "") subpath) = .success r →
      respOk r = false →
      (proxyRequest cache upstream src subpath origin).cachePut = none) := by
  refine ⟨?_, ?_, ?_⟩
  · intro cache upstream src subpath origin url e hput
    unfold proxyRequest at hput
    repeat' split at hput
    all_goals simp_all
    · intro n hn
      rename_i hsize _
      rw [oversizeOf, hn] at hsize
      simpa using hsize
  · intro cache upstream src subpath origin r n hsrc hfile hcache hup hok hn hbig
    have hsize : oversizeOf r = true := by
      rw [oversizeOf, hn]
      simpa using hbig
    unfold proxyRequest
    simp [hsrc, hfile, hcache, hup, hok, hsize, jsonResp]
  · intro cache upstream src subpath origin r hup hok
    unfold proxyRequest
    repeat' split
    all_goals simp_all

/-- Witness for `c3_cache_invariant`: an upstream that declares 100 MiB + 1
bytes gets a 413 and no cache store. -/
theorem c3_cache_invariant_witness :
    (proxyRequest (fun _ => none) upstreamBig (some "https://cdn.example.com/gs")
      "/mod.wasm" none).response.status = 413 ∧
    (proxyRequest (fun _ => none) upstreamBig (some "https://cdn.example.com/gs")
      "/mod.wasm" none).cachePut = none :=
  c3_cache_invariant.2.1 (fun _ => none) upstreamBig (some "https://cdn.example.com/gs")
    "/mod.wasm" none ⟨200, "OK", some "104857601", []⟩ 104857601
    (by decide) (by decide) rfl rfl (by decide) (by decide) (by decide)

/-! ## C4: rate limiter -/

/-- C4: with the KV binding present (and a request that passes the origin and
method gates), the handler reads the stored timestamp list for the client
key and filters out entries older than the 60-second window; if the
remaining count is at or over 100 it returns 429 with `Retry-After: 60`,
fetches nothing upstream, and writes nothing back; otherwise it persists the
filtered list plus the current timestamp with a 120-second expiry and serves
the dispatcher's response. -/
theorem c4_rate_limiter (req : Request) (env : Env) (w : World)
    (kv : String → Option (List Int))
    (hkv : env.rateLimitKV = some kv)
    (horig : isAllowedOrigin req.origin = true)
    (hm : req.method = "GET" ∨ req.method = "HEAD") :
    (workerFetch req env w).kvReadKey = some (rateKeyOf req) ∧
    (RATE_LIMIT_MAX_REQUESTS ≤ (recentOf kv (rateKeyOf req) w.now).length →
      (workerFetch req env w).response.status = 429 ∧
      ("Retry-After", "60") ∈ (workerFetch req env w).response.headers ∧
      (workerFetch req env w).fetched = [] ∧
      (workerFetch req env w).kvPut = none) ∧
    ((recentOf kv (rateKeyOf req) w.now).length < RATE_LIMIT_MAX_REQUESTS →
      (workerFetch req env w).kvPut =
        some ⟨rateKeyOf req, recentOf kv (rateKeyOf req) w.now ++ [w.now], 120⟩ ∧
      (workerFetch req env w).response = (dispatch req env w).response ∧
      (workerFetch req env w).fetched = (dispatch req env w).fetched) := by
  have hnopt : ¬(req.method = "OPTIONS") := by
    rcases hm with h | h <;> simp [h]
  have hmeth : ¬(req.method ≠ "GET" ∧ req.method ≠ "HEAD") := by
    rcases hm with h | h <;> simp [h]
  unfold workerFetch
  rw [if_neg hnopt, horig]
  simp only [Bool.not_true, Bool.false_eq_true, if_false, if_neg hmeth, hkv]
  refine ⟨?_, ?_, ?_⟩
  · split
    · rfl
    · rfl
  · intro hge
    rw [if_pos hge]
    exact ⟨rfl, by simp [corsHeaders], rfl, rfl⟩
  · intro hlt
    have hnge : ¬((recentOf kv (rateKeyOf req) w.now).length ≥ RATE_LIMIT_MAX_REQUESTS) := by
      omega
    rw [if_neg hnge]
    exact ⟨rfl, rfl, rfl⟩

/-- Witness for `c4_rate_limiter`: with 100 fresh timestamps stored, a GET is
answered 429 with `Retry-After: 60`, no fetch and no KV write. -/
theorem c4_rate_limiter_witness :
    (workerFetch ⟨"GET", "/health", none, none⟩ envKvHundred sampleWorld).response.status = 429 ∧
    ("Retry-After", "60") ∈
      (workerFetch ⟨"GET", "/health", none, none⟩ envKvHundred sampleWorld).response.headers ∧
    (workerFetch ⟨"GET", "/health", none, none⟩ envKvHundred sampleWorld).fetched = [] ∧
    (workerFetch ⟨"GET", "/health", none, none⟩ envKvHundred sampleWorld).kvPut = none :=
  (c4_rate_limiter ⟨"GET", "/health", none, none⟩ envKvHundred sampleWorld kvHundred
    rfl rfl (Or.inl rfl)).2.1 (by decide)

/-! ## C9: shared unknown-IP key -/

/-- C9: a request without a CF-Connecting-IP header is rate-limited under the
single shared key `wasm-ratelimit:unknown`: that is the key read, and the
key of any KV write the handler performs. -/
theorem c9_unknown_ip_shared_key (req : Request) (env : Env) (w : World)
    (kv : String → Option (List Int))
    (hkv : env.rateLimitKV = some kv)
    (horig : isAllowedOrigin req.origin = true)
    (hm : req.method = "GET" ∨ req.method = "HEAD")
    (hip : req.cfConnectingIP = none) :
    (workerFetch req env w).kvReadKey = some "wasm-ratelimit:unknown" ∧
    (∀ p, (workerFetch req env w).kvPut = some p → p.key = "wasm-ratelimit:unknown") := by
  have hkey : rateKeyOf req = "wasm-ratelimit:unknown" := by
    rw [rateKeyOf, hip]
    rfl
  have hnopt : ¬(req.method = "OPTIONS") := by
    rcases hm with h | h <;> simp [h]
  have hmeth : ¬(req.method ≠ "GET" ∧ req.method ≠ "HEAD") := by
    rcases hm with h | h <;> simp [h]
  unfold workerFetch
  rw [if_neg hnopt, horig]
  simp only [Bool.not_true, Bool.false_eq_true, if_false, if_neg hmeth, hkv, hkey]
  constructor
  · split
    · rfl
    · rfl
  · intro p hp
    split at hp
    · simp at hp
    · rw [Option.some_inj] at hp
      rw [← hp]

/-- Witness for `c9_unknown_ip_shared_key` at a concrete KV store. -/
theorem c9_unknown_ip_shared_key_witness :
    (workerFetch ⟨"GET", "/health", none, none⟩ envKvTwo sampleWorld).kvReadKey =
      some "wasm-ratelimit:unknown" ∧
    (∀ p, (workerFetch ⟨"GET", "/health", none, none⟩ envKvTwo sampleWorld).kvPut = some p →
      p.key = "wasm-ratelimit:unknown") :=
  c9_unknown_ip_shared_key ⟨"GET", "/health", none, none⟩ envKvTwo sampleWorld kvTwo
    rfl rfl (Or.inl rfl) rfl

/-! ## C5 and C6: the compression-preserving route -/

/-- A sublist that occurs as an infix is found by `isSubstrOf`. -/
theorem isSubstrOf_of_infix (pat : List Char) :
    ∀ l : List Char, pat <:+: l → isSubstrOf pat l = true := by
  intro l
  induction l with
  | nil =>
    intro h
    rw [List.infix_nil] at h
    subst h
    rfl
  | cons c rest ih =>
    intro h
    obtain ⟨u, v, huv⟩ := h
    cases u with
    | nil =>
      have hpre : pat.isPrefixOf (c :: rest) = true :=
        List.isPrefixOf_iff_prefix.mpr ⟨v, by simpa using huv⟩
      simp [isSubstrOf, hpre]
    | cons a u2 =>
      have htail : u2 ++ pat ++ v = rest := by
        simpa using congrArg List.tail huv
      simp [isSubstrOf, ih ⟨u2, v, htail⟩]

/-- If `s` ends with `soffice.wasm` then `s ++ ".gz"` contains
`soffice.wasm` as a substring (the check the fetcher performs). -/
theorem includes_soffice_of_endsWith (s : String)
    (h : jsEndsWith s "soffice.wasm" = true) :
    jsIncludes (s ++ ".gz") "soffice.wasm" = true := by
  rw [jsEndsWith, List.isSuffixOf_iff_suffix] at h
  obtain ⟨u, hu⟩ := h
  rw [jsIncludes]
  apply isSubstrOf_of_infix
  refine ⟨u, ".gz".toList, ?_⟩
  have h2 : (s ++ ".gz").toList = s.toList ++ ".gz".toList := String.data_append s ".gz"
  rw [h2, ← hu]

/-- C5: a GET on the document-conversion route whose subpath ends in `.wasm`
or `.data` (passing the origin gate, with no KV binding and the source
configured) fetches exactly the upstream URL obtained by appending `.gz` to
the subpath, and on upstream success the response carries
`Content-Encoding: gzip`, the manual-encoding marker, and, when the subpath
ends in `soffice.wasm`, `Content-Type: application/wasm`. -/
theorem c5_wasm_data_gz_rewrite (req : Request) (env : Env) (w : World) (b : String)
    (hget : req.method = "GET")
    (hkv : env.rateLimitKV = none)
    (horig : isAllowedOrigin req.origin = true)
    (hlo : env.libreoffice = some b)
    (hb : b.toList.isEmpty = false)
    (hpath : jsStartsWith req.pathname "/libreoffice/" = true)
    (hsub : jsEndsWith (jsReplaceFirst req.pathname "/libreoffice" "") ".wasm" = true ∨
            jsEndsWith (jsReplaceFirst req.pathname "/libreoffice" "") ".data" = true) :
    (workerFetch req env w).fetched =
      [targetUrlOf b (jsReplaceFirst req.pathname "/libreoffice" "" ++ ".gz")] ∧
    (∀ r, w.upstream (targetUrlOf b (jsReplaceFirst req.pathname "/libreoffice" "" ++ ".gz")) =
        .success r →
      respOk r = true →
      ("Content-Encoding", "gzip") ∈ (workerFetch req env w).response.headers ∧
      (workerFetch req env w).response.encodeManual = true ∧
      (jsEndsWith (jsReplaceFirst req.pathname "/libreoffice" "") "soffice.wasm" = true →
        ("Content-Type", "application/wasm") ∈ (workerFetch req env w).response.headers)) := by
  have hnopt : ¬(req.method = "OPTIONS") := by simp [hget]
  have hmeth : ¬(req.method ≠ "GET" ∧ req.method ≠ "HEAD") := by simp [hget]
  have hcond : (jsEndsWith (jsReplaceFirst req.pathname "/libreoffice" "") ".wasm" ||
                jsEndsWith (jsReplaceFirst req.pathname "/libreoffice" "") ".data") = true := by
    rcases hsub with h | h <;> simp [h]
  unfold workerFetch dispatch
  rw [if_neg hnopt, horig]
  simp only [Bool.not_true, Bool.false_eq_true, if_false, if_neg hmeth, hkv, hpath, hcond,
    if_true, hlo, liftP]
  unfold proxyLibreOfficeGz
  have hfalsy : jsFalsy (some b) = false := hb
  simp only [hfalsy, Bool.false_eq_true, if_false, Option.getD_some]
  constructor
  · split
    · rfl
    · split
      · rfl
      · rfl
  · intro r hup hok
    rw [hup]
    simp only [hok, Bool.not_true, Bool.false_eq_true, if_false]
    refine ⟨by simp [corsHeaders], trivial, ?_⟩
    intro hends
    have hinc := includes_soffice_of_endsWith _ hends
    simp [corsHeaders, gzContentType, hinc]

/-- Witness for `c5_wasm_data_gz_rewrite` on the request
`GET /libreoffice/soffice.wasm`. -/
theorem c5_wasm_data_gz_rewrite_witness :
    (workerFetch ⟨"GET", "/libreoffice/soffice.wasm", none, none⟩ sampleEnv
        sampleWorld).fetched = ["https://cdn.example.com/lo/soffice.wasm.gz"] ∧
    ("Content-Encoding", "gzip") ∈
      (workerFetch ⟨"GET", "/libreoffice/soffice.wasm", none, none⟩ sampleEnv
        sampleWorld).response.headers ∧
    (workerFetch ⟨"GET", "/libreoffice/soffice.wasm", none, none⟩ sampleEnv
        sampleWorld).response.encodeManual = true ∧
    ("Content-Type", "application/wasm") ∈
      (workerFetch ⟨"GET", "/libreoffice/soffice.wasm", none, none⟩ sampleEnv
        sampleWorld).response.headers := by
  have h := c5_wasm_data_gz_rewrite ⟨"GET", "/libreoffice/soffice.wasm", none, none⟩
    sampleEnv sampleWorld "https://cdn.example.com/lo"
    rfl rfl rfl rfl (by decide) (by decide) (Or.inl (by decide))
  have h2 := h.2 ⟨200, "OK", none, [1, 2, 3]⟩ rfl (by decide)
  exact ⟨h.1, h2.1, h2.2.1, h2.2.2 (by decide)⟩

/-- Spec-side definition for the C6 comparison: the original
(pre-`.gz`-suffix) file name of a compressed subpath. -/
def preGzName (subpath : String) : String :=
  if jsEndsWith subpath ".gz" then
    String.mk (subpath.toList.take (subpath.toList.length - 3))
  else subpath

/-- Spec-side definition for the C6 comparison: whether a name indicates the
binary-module (`.wasm`) format, per the spec's words. -/
def specIndicatesWasm (name : String) : Bool :=
  jsEndsWith name ".wasm"

/-- C6 counterexample: for the request `GET /libreoffice/writer.wasm` the
original (pre-`.gz`-suffix) name `/writer.wasm` indicates the binary-module
format, yet the emitted Content-Type is `application/octet-stream`, because
the code tests for the literal substring `soffice.wasm` rather than the
`.wasm` extension. -/
theorem c6_writer_wasm_gets_octet_stream :
    specIndicatesWasm (preGzName "/writer.wasm.gz") = true ∧
    ("Content-Type", "application/octet-stream") ∈
      (workerFetch ⟨"GET", "/libreoffice/writer.wasm", none, none⟩ sampleEnv
        sampleWorld).response.headers ∧
    ("Content-Type", "application/wasm") ∉
      (workerFetch ⟨"GET", "/libreoffice/writer.wasm", none, none⟩ sampleEnv
        sampleWorld).response.headers := by
  refine ⟨by decide, by decide, by decide⟩

/-- C6 (amended): the compression-preserving fetcher emits
`Content-Type: application/wasm` exactly when the (already `.gz`-suffixed)
subpath contains the literal substring `soffice.wasm`, and
`application/octet-stream` otherwise. -/
theorem c6_content_type_substring_test (upstream : String → FetchOutcome)
    (b subpath : String) (origin : Option String) (r : UpstreamResp)
    (hb : b.toList.isEmpty = false)
    (hup : upstream (targetUrlOf b subpath) = .success r)
    (hok : respOk r = true) :
    (jsIncludes subpath "soffice.wasm" = true →
      ("Content-Type", "application/wasm") ∈
        (proxyLibreOfficeGz upstream (some b) subpath origin).response.headers) ∧
    (jsIncludes subpath "soffice.wasm" = false →
      ("Content-Type", "application/octet-stream") ∈
        (proxyLibreOfficeGz upstream (some b) subpath origin).response.headers ∧
      ("Content-Type", "application/wasm") ∉
        (proxyLibreOfficeGz upstream (some b) subpath origin).response.headers) := by
  have hfalsy : jsFalsy (some b) = false := hb
  unfold proxyLibreOfficeGz
  simp only [hfalsy, Bool.false_eq_true, if_false, Option.getD_some, hup]
  simp only [hok, Bool.not_true, Bool.false_eq_true, if_false]
  constructor
  · intro hinc
    simp [corsHeaders, gzContentType, hinc]
  · intro hinc
    constructor
    · simp [corsHeaders, gzContentType, hinc]
    · simp [corsHeaders, gzContentType, hinc]

/-- Witness for `c6_content_type_substring_test` on the soffice subpath. -/
theorem c6_content_type_substring_test_witness :
    ("Content-Type", "application/wasm") ∈
      (proxyLibreOfficeGz sampleUpstream (some "https://cdn.example.com/lo")
        "/soffice.wasm.gz" none).response.headers :=
  (c6_content_type_substring_test sampleUpstream "https://cdn.example.com/lo"
    "/soffice.wasm.gz" none ⟨200, "OK", none, [1, 2, 3]⟩
    (by decide) rfl (by decide)).1 (by decide)

/-! ## C7: file-type gate -/

/-- C7: the gate admits a subpath exactly when its lowercased extension
(substring from the last `.`) is allow-listed, or the path has no `.`, or it
ends in `/`; a rejected subpath gets a 403 from the cache-aware fetcher with
no upstream fetch and no cache write; in particular `.exe` and `.bat`
subpaths are rejected, and a `GET /gs/evil.exe` against a configured route
yields 403 with no fetch. -/
theorem c7_file_type_gate :
    (∀ p : String, isAllowedFile p = true ↔
      (extOf p ∈ ALLOWED_EXTENSIONS ∨ jsIncludes p "." = false ∨ jsEndsWith p "/" = true)) ∧
    (∀ (cache : String → Option CacheEntry) (upstream : String → FetchOutcome)
       (src : Option String) (subpath : String) (origin : Option String),
      jsFalsy src = false →
      isAllowedFile (normalizePath subpath) = false →
      (proxyRequest cache upstream src subpath origin).response.status = 403 ∧
      (proxyRequest cache upstream src subpath origin).fetched = [] ∧
      (proxyRequest cache upstream src subpath origin).cachePut = none) ∧
    (isAllowedFile (normalizePath "/evil.exe") = false ∧
     isAllowedFile (normalizePath "/evil.bat") = false ∧
     (workerFetch ⟨"GET", "/gs/evil.exe", none, none⟩ sampleEnv sampleWorld).response.status = 403 ∧
     (workerFetch ⟨"GET", "/gs/evil.exe", none, none⟩ sampleEnv sampleWorld).fetched = [] ∧
     (workerFetch ⟨"GET", "/cpdf/evil.bat", none, none⟩ sampleEnv
       sampleWorld).response.status = 403) := by
  refine ⟨?_, ?_, ?_⟩
  · intro p
    by_cases h1 : extOf p ∈ ALLOWED_EXTENSIONS
    · have hc : ALLOWED_EXTENSIONS.contains (extOf p) = true := List.elem_iff.mpr h1
      simp [isAllowedFile, hc, h1]
    · have hc : ALLOWED_EXTENSIONS.contains (extOf p) = false := by
        rcases hcc : ALLOWED_EXTENSIONS.contains (extOf p) with _ | _
        · rfl
        · exact absurd (List.elem_iff.mp hcc) h1
      cases hj : jsIncludes p "." <;> cases he : jsEndsWith p "/" <;>
        simp [isAllowedFile, hc, h1, hj, he]
  · intro cache upstream src subpath origin hsrc hfile
    unfold proxyRequest
    simp [hsrc, hfile, jsonResp]
  · refine ⟨by decide, by decide, by decide, by decide, by decide⟩

/-- Witness for `c7_file_type_gate`: rejecting `/evil.exe` on a configured
source. -/
theorem c7_file_type_gate_witness :
    (proxyRequest (fun _ => none) sampleUpstream (some "https://cdn.example.com/gs")
      "/evil.exe" none).response.status = 403 ∧
    (proxyRequest (fun _ => none) sampleUpstream (some "https://cdn.example.com/gs")
      "/evil.exe" none).fetched = [] ∧
    (proxyRequest (fun _ => none) sampleUpstream (some "https://cdn.example.com/gs")
      "/evil.exe" none).cachePut = none :=
  c7_file_type_gate.2.1 (fun _ => none) sampleUpstream (some "https://cdn.example.com/gs")
    "/evil.exe" none (by decide) (by decide)

/-! ## C8: missing Content-Length treated as zero -/

/-- C8: when a success upstream response carries no Content-Length header,
the fetcher parses the fallback string `0`, so the declared length is 0: the
413 rejection cannot trigger, the full body is forwarded with status 200,
and (for upstream status exactly 200) the response is stored in the cache. -/
theorem c8_no_content_length_is_zero (cache : String → Option CacheEntry)
    (upstream : String → FetchOutcome) (src : Option String) (subpath : String)
    (origin : Option String) (r : UpstreamResp)
    (hsrc : jsFalsy src = false)
    (hfile : isAllowedFile (normalizePath subpath) = true)
    (hcache : cache (targetUrlOf (src.getD "") subpath) = none)
    (hup : upstream (targetUrlOf (src.getD "") subpath) = .success r)
    (hok : respOk r = true)
    (hcl : r.contentLength = none) :
    jsParseInt10 (jsOrStr r.contentLength "0") = some 0 ∧
    oversizeOf r = false ∧
    (proxyRequest cache upstream src subpath origin).response.status = 200 ∧
    (proxyRequest cache upstream src subpath origin).response.body = .bytes r.body ∧
    (r.status = 200 →
      (proxyRequest cache upstream src subpath origin).cachePut =
        some (targetUrlOf (src.getD "") subpath, ⟨r.status, r.body⟩)) := by
  have hov : oversizeOf r = false := by
    rw [oversizeOf, hcl]
    rfl
  have hparse : jsParseInt10 (jsOrStr r.contentLength "0") = some 0 := by
    rw [hcl]
    rfl
  unfold proxyRequest
  simp only [hsrc, Bool.false_eq_true, if_false, hfile, Bool.not_true, hcache, hup, hok, hov,
    Bool.not_false, if_true]
  refine ⟨hparse, trivial, rfl, rfl, ?_⟩
  intro h200
  simp [h200]

/-- Witness for `c8_no_content_length_is_zero` with `sampleUpstream`, which
declares no Content-Length. -/
theorem c8_no_content_length_is_zero_witness :
    (proxyRequest (fun _ => none) sampleUpstream (some "https://cdn.example.com/gs")
      "/mod.wasm" none).response.status = 200 ∧
    (proxyRequest (fun _ => none) sampleUpstream (some "https://cdn.example.com/gs")
      "/mod.wasm" none).cachePut =
      some ("https://cdn.example.com/gs/mod.wasm", ⟨200, [1, 2, 3]⟩) := by
  have h := c8_no_content_length_is_zero (fun _ => none) sampleUpstream
    (some "https://cdn.example.com/gs") "/mod.wasm" none ⟨200, "OK", none, [1, 2, 3]⟩
    (by decide) (by decide) rfl rfl (by decide) rfl
  exact ⟨h.2.2.1, h.2.2.2.2 rfl⟩

/-! ## C10: success responses are normalized to status 200 -/

/-- C10: both fetchers emit status exactly 200 on upstream success (size
check passed, for the cache-aware one), even when the upstream success
status differs from 200, such as 206. -/
theorem c10_success_always_200 :
    (∀ (cache : String → Option CacheEntry) (upstream : String → FetchOutcome)
       (src : Option String) (subpath : String) (origin : Option String)
       (r : UpstreamResp),
      jsFalsy src = false →
      isAllowedFile (normalizePath subpath) = true →
      cache (targetUrlOf (src.getD "") subpath) = none →
      upstream (targetUrlOf (src.getD "") subpath) = .success r →
      respOk r = true →
      oversizeOf r = false →
      (proxyRequest cache upstream src subpath origin).response.status = 200) ∧
    (∀ (upstream : String → FetchOutcome) (src : Option String) (subpath : String)
       (origin : Option String) (r : UpstreamResp),
      jsFalsy src = false →
      upstream (targetUrlOf (src.getD "") subpath) = .success r →
      respOk r = true →
      (proxyLibreOfficeGz upstream src subpath origin).response.status = 200) := by
  constructor
  · intro cache upstream src subpath origin r hsrc hfile hcache hup hok hov
    unfold proxyRequest
    simp [hsrc, hfile, hcache, hup, hok, hov, okProxyResp]
  · intro upstream src subpath origin r hsrc hup hok
    unfold proxyLibreOfficeGz
    simp [hsrc, hup, hok]

/-- Witness for `c10_success_always_200`: a 206 Partial Content upstream is
re-emitted as 200 by both fetchers. -/
theorem c10_success_always_200_witness :
    upstream206 "https://cdn.example.com/gs/mod.wasm" = .success ⟨206, "Partial Content", none, [9]⟩ ∧
    (proxyRequest (fun _ => none) upstream206 (some "https://cdn.example.com/gs")
      "/mod.wasm" none).response.status = 200 ∧
    (proxyLibreOfficeGz upstream206 (some "https://cdn.example.com/lo")
      "/soffice.wasm.gz" none).response.status = 200 :=
  ⟨rfl,
   c10_success_always_200.1 (fun _ => none) upstream206 (some "https://cdn.example.com/gs")
     "/mod.wasm" none ⟨206, "Partial Content", none, [9]⟩
     (by decide) (by decide) rfl rfl (by decide) (by decide),
   c10_success_always_200.2 upstream206 (some "https://cdn.example.com/lo")
     "/soffice.wasm.gz" none ⟨206, "Partial Content", none, [9]⟩
     (by decide) rfl (by decide)⟩

end WasmProxy
